import Mathlib

/-!
Shallow embedding of the agent orchestration core of this repository:
`mcp_agent.py` (class MCPAgent), `mcp_client.py` (class MCPClient) and
`main.py` (the Gradio chat callback and the global initialization task).
Pure observable behavior is modelled; external collaborators (the
langchain model, the langgraph executor, the multi-server MCP library)
enter only through explicitly named parameters or outcome values.
-/

namespace MCPStudy

/-- Python `str.strip()`: remove leading and trailing whitespace.
Embedded structurally (over the character list) so that concrete
evaluations reduce. -/
def pyStrip (s : String) : String :=
  String.mk (((s.data.dropWhile Char.isWhitespace).reverse.dropWhile Char.isWhitespace).reverse)

/-- One message inside a streamed agent step, as inspected by
`MCPAgent._get_streaming_callback` (`mcp_agent.py` lines 41-48): an
`AIMessage` carrying text content, a `ToolMessage` carrying a tool name
and result content, or any other message kind (ignored). -/
inductive StreamMsg where
  | ai (content : String)
  | toolMsg (name : String) (content : String)
  | otherMsg
deriving DecidableEq, Repr

/-- One chunk value handed to the callback while iterating
`agent.astream_log` (`mcp_agent.py` lines 34-40, 65-70): either a dict
having some key whose value is a dict with a "messages" list (an agent
step), or any other shape, which the callback ignores. -/
inductive StreamChunk where
  | step (msgs : List StreamMsg)
  | unrecognized
deriving DecidableEq, Repr

/-- The two accumulators closed over by the streaming callback
(`mcp_agent.py` lines 30-31). -/
structure CallbackState where
  accumulated_text : List String
  accumulated_tool_info : List String
deriving DecidableEq, Repr

def initCallbackState : CallbackState :=
  { accumulated_text := [], accumulated_tool_info := [] }

/-- Effect of one streamed message on the accumulators (`mcp_agent.py`
lines 41-48): an `AIMessage` with truthy (non-empty) content appends its
content to `accumulated_text`; a `ToolMessage` appends a formatted
"Tool Used" entry to `accumulated_tool_info`; anything else is ignored.
The source re-encodes the content as UTF-8 with replacement, which is
the identity on the (always valid) strings of this embedding. -/
def feedMsg (s : CallbackState) (m : StreamMsg) : CallbackState :=
  match m with
  | .ai content =>
      if content = "" then s
      else { s with accumulated_text := s.accumulated_text ++ [content] }
  | .toolMsg name content =>
      { s with accumulated_tool_info :=
          s.accumulated_tool_info ++ ["Tool Used: " ++ name ++ "\nResult: " ++ content] }
  | .otherMsg => s

/-- `callback_func` applied to one chunk (`mcp_agent.py` lines 33-48). -/
def callback_func (s : CallbackState) (chunk : StreamChunk) : CallbackState :=
  match chunk with
  | .step msgs => msgs.foldl feedMsg s
  | .unrecognized => s

/-- Feeding a whole chunk sequence from fresh accumulators, as the
`async for` loop of `process_query` does (`mcp_agent.py` lines 65-70). -/
def feedAll (chunks : List StreamChunk) : CallbackState :=
  chunks.foldl callback_func initCallbackState

/-- The dict returned by `MCPAgent.process_query` (`mcp_agent.py` lines
73 and 75-78): on an exception only the "error" key is present; on
success only "output" and "tool_calls" are. -/
structure TurnResult where
  output : Option String
  tool_calls : Option String
  error : Option String
deriving DecidableEq, Repr

/-- Outcome of iterating `agent.astream_log`: the decoded chunks it
yielded, and whether it ended normally or by raising with message `e`
(the chunks delivered before the exception included). -/
inductive StreamOutcome where
  | ok (chunks : List StreamChunk)
  | raises (chunks : List StreamChunk) (e : String)
deriving DecidableEq, Repr

/-- `MCPAgent.process_query` (`mcp_agent.py` lines 52-78) as a function
of the stream outcome: every delivered chunk is fed to the callback; an
exception yields an error-only dict; otherwise "output" is the joined
accumulated text, stripped, and "tool_calls" joins the tool entries with
newlines (the empty string when there were none). -/
def process_query (outcome : StreamOutcome) : TurnResult :=
  match outcome with
  | .raises _ e => { output := none, tool_calls := none, error := some e }
  | .ok chunks =>
      let s := feedAll chunks
      { output := some (pyStrip (String.join s.accumulated_text)),
        tool_calls := some (if s.accumulated_tool_info = [] then ""
          else String.intercalate "\n" s.accumulated_tool_info),
        error := none }

/-- The messages carried by a chunk. -/
def msgsOf : StreamChunk → List StreamMsg
  | .step msgs => msgs
  | .unrecognized => []

/-- The text content of an assistant message, if it is one. -/
def aiContentOf : StreamMsg → Option String
  | .ai c => some c
  | _ => none

/-- The assistant-message text contents c1..cn carried by a chunk
stream, in emission order. -/
def aiContents (chunks : List StreamChunk) : List String :=
  (chunks.flatMap msgsOf).filterMap aiContentOf

/-- The character data of an accumulated-text list, concatenated. -/
def textData (l : List String) : List Char := (l.map String.data).flatten

lemma textData_nil : textData [] = [] := rfl

lemma textData_cons (a : String) (l : List String) :
    textData (a :: l) = a.data ++ textData l := by simp [textData]

lemma textData_append (l1 l2 : List String) :
    textData (l1 ++ l2) = textData l1 ++ textData l2 := by simp [textData]

lemma data_empty_str : ("" : String).data = [] := rfl

lemma foldl_feedMsg_textData (ms : List StreamMsg) (s : CallbackState) :
    textData (ms.foldl feedMsg s).accumulated_text =
      textData s.accumulated_text ++ textData (ms.filterMap aiContentOf) := by
  induction ms generalizing s with
  | nil => simp [textData]
  | cons m ms ih =>
    cases m with
    | ai c =>
      by_cases hc : c = ""
      · subst hc
        simp [feedMsg, aiContentOf, ih, textData_cons, data_empty_str]
      · simp [feedMsg, aiContentOf, hc, ih, textData_cons, textData_append,
          textData_nil, List.append_assoc]
    | toolMsg n c => simp [feedMsg, aiContentOf, ih]
    | otherMsg => simp [feedMsg, aiContentOf, ih]

lemma foldl_callback_textData (chunks : List StreamChunk) (s : CallbackState) :
    textData (chunks.foldl callback_func s).accumulated_text =
      textData s.accumulated_text ++ textData (aiContents chunks) := by
  induction chunks generalizing s with
  | nil => simp [aiContents, textData]
  | cons ch chunks ih =>
    simp only [List.foldl_cons]
    rw [ih]
    cases ch with
    | step msgs =>
      rw [show callback_func s (.step msgs) = msgs.foldl feedMsg s from rfl,
        foldl_feedMsg_textData]
      simp [aiContents, msgsOf, textData_append, List.append_assoc]
    | unrecognized =>
      simp [callback_func, aiContents, msgsOf, textData_append]

/-- The answer text computed by a normally ending turn is the stripped
join of all assistant text contents, in order. -/
lemma process_query_output (chunks : List StreamChunk) :
    (process_query (.ok chunks)).output =
      some (pyStrip (String.join (aiContents chunks))) := by
  have hdata : (String.join (feedAll chunks).accumulated_text).data =
      (String.join (aiContents chunks)).data := by
    have h := foldl_callback_textData chunks initCallbackState
    simpa [String.data_join, feedAll, initCallbackState, textData] using h
  have hjoin : String.join (feedAll chunks).accumulated_text =
      String.join (aiContents chunks) := String.ext hdata
  simp [process_query, hjoin]

lemma process_query_sanity :
    process_query (.ok [.step [.ai "  he"], .step [.ai "llo "], .unrecognized]) =
      { output := some "hello", tool_calls := some "", error := none } := by decide

/-! ### Timeout configuration (`mcp_agent.py` line 11)

`MCPAgent.TIMEOUT_SECONDS` is defined on the class but is read nowhere
in the repository: `process_query` builds its `RunnableConfig` from the
recursion limit and the thread id only, and wraps the stream in no
wait/race. -/

def TIMEOUT_SECONDS : Nat := 300

/-- A streamed chunk annotated with the wall-clock time (seconds since
the turn started) at which it is delivered. -/
structure TimedChunk where
  at_seconds : Nat
  chunk : StreamChunk
deriving DecidableEq, Repr

/-- `MCPAgent.process_query` observed against the wall clock: the source
contains no timeout logic, so the turn consumes every chunk whenever it
arrives and the arrival times never influence the result. -/
def process_query_timed (timed : List TimedChunk) : TurnResult :=
  process_query (.ok (timed.map TimedChunk.chunk))

/-! ### The reasoning loop budget (`mcp_agent.py` lines 12, 59-73)

`RECURSION_LIMIT` is passed as `recursion_limit` in the `RunnableConfig`
of every turn. The loop that honors it is the external langgraph
react-agent executor, whose code is not part of this repository; its
behavior is modelled from the spec below. -/

def RECURSION_LIMIT : Nat := 100

/-- What the model asks for at one AwaitingModel state: a final answer,
or a batch of tool calls to dispatch. -/
inductive ModelStep where
  | finalAnswer (text : String)
  | toolCalls (calls : List String)
deriving DecidableEq, Repr

/-- Result of one reasoning turn: a final answer reached after some
number of model-to-tool dispatch hops, or a forced stop with a
budget-exceeded reason. -/
inductive LoopResult where
  | done (answer : String) (hops : Nat)
  | budgetExceeded (hops : Nat)
deriving DecidableEq, Repr

/-- The number of dispatch hops a loop outcome records. -/
def LoopResult.hopCount : LoopResult → Nat
  | .done _ h => h
  | .budgetExceeded h => h

/-- Modelled from the spec: the reasoning loop of §4.3
(ReasoningLoopController) is realized by the external langgraph
react-agent executor, which is not part of this repository; only the
budget constant and its wiring live in `mcp_agent.py`. Per the spec, a
step counter increments on every AwaitingModel → ToolDispatch hop, and
when the budget is spent the controller forces a BudgetExceeded failure
instead of looping. `model i` is the model's decision when `i` hops have
already been taken. -/
def reasoningLoop (model : Nat → ModelStep) (hops fuel : Nat) : LoopResult :=
  match fuel with
  | 0 => .budgetExceeded hops
  | fuel' + 1 =>
      match model hops with
      | .finalAnswer t => .done t hops
      | .toolCalls _ => reasoningLoop model (hops + 1) fuel'

/-- One full turn under the configured budget. -/
def runTurn (model : Nat → ModelStep) : LoopResult :=
  reasoningLoop model 0 RECURSION_LIMIT

/-- Modelled from the spec: when the loop stops with BudgetExceeded the
executor raises, and the except-branch of `process_query`
(`mcp_agent.py` lines 71-73) turns the exception into an error-only
result; a final answer is streamed as assistant text. -/
def process_query_driven (model : Nat → ModelStep) : TurnResult :=
  match runTurn model with
  | .done t _ => process_query (.ok [.step [.ai t]])
  | .budgetExceeded _ =>
      process_query (.raises [] "GraphRecursionError: recursion limit reached")

lemma reasoningLoop_hops_le (model : Nat → ModelStep) (fuel : Nat) :
    ∀ hops, (reasoningLoop model hops fuel).hopCount ≤ hops + fuel := by
  induction fuel with
  | zero => intro hops; simp [reasoningLoop, LoopResult.hopCount]
  | succ fuel ih =>
    intro hops
    simp only [reasoningLoop]
    cases model hops with
    | finalAnswer t => simp [LoopResult.hopCount]
    | toolCalls cs =>
      exact le_trans (ih (hops + 1)) (by omega)

lemma reasoningLoop_pathological (model : Nat → ModelStep)
    (hpath : ∀ i, ∃ cs, model i = ModelStep.toolCalls cs) (fuel : Nat) :
    ∀ hops, reasoningLoop model hops fuel = .budgetExceeded (hops + fuel) := by
  induction fuel with
  | zero => intro hops; simp [reasoningLoop]
  | succ fuel ih =>
    intro hops
    obtain ⟨cs, hcs⟩ := hpath hops
    simp only [reasoningLoop, hcs]
    rw [ih (hops + 1)]
    congr 1
    omega

/-! ### Class-attribute semantics of `MCPAgent` (`mcp_agent.py` lines 9-15)

The class body runs exactly once, when the module is imported, and
`QUERY_THREAD_ID = str(uuid.uuid4())` draws a single uuid at that
moment; the value lives on the class object, not on instances. -/

/-- The class object produced by executing the `MCPAgent` class body. -/
structure MCPAgentClass where
  QUERY_THREAD_ID : String
  TIMEOUT_SECONDS_attr : Nat
  RECURSION_LIMIT_attr : Nat
deriving DecidableEq, Repr

/-- Import-time evaluation of the class body, given the uuid string the
single `uuid.uuid4()` call returned. -/
def defineMCPAgentClass (uuidDraw : String) : MCPAgentClass :=
  { QUERY_THREAD_ID := uuidDraw, TIMEOUT_SECONDS_attr := 300,
    RECURSION_LIMIT_attr := 100 }

def MCP_CHAT_PROMPT : String :=
  "You are a helpful AI assistant that can use tools to answer questions..."

/-- An `MCPAgent` instance (`mcp_agent.py` lines 17-27): `__init__`
stores the chat model, the executor and the system prompt; it never
writes `QUERY_THREAD_ID`, so attribute lookup on the instance falls
through to the class object. `sessionIdx` distinguishes separately
created instances (sessions). -/
structure MCPAgentInst where
  cls : MCPAgentClass
  sessionIdx : Nat
  system_prompt : String
deriving DecidableEq, Repr

/-- `MCPAgent.__init__` (`mcp_agent.py` lines 17-27):
`self.system_prompt = system_prompt or self.MCP_CHAT_PROMPT` falls back
to the class prompt when the argument is None or falsy (empty). -/
def mkMCPAgent (cls : MCPAgentClass) (sessionIdx : Nat)
    (system_prompt : Option String) : MCPAgentInst :=
  { cls := cls, sessionIdx := sessionIdx,
    system_prompt :=
      match system_prompt with
      | none => MCP_CHAT_PROMPT
      | some s => if s = "" then MCP_CHAT_PROMPT else s }

/-- `self.QUERY_THREAD_ID` as read in `process_query` (`mcp_agent.py`
line 61): instance attribute lookup resolves to the class attribute. -/
def threadIdOf (a : MCPAgentInst) : String := a.cls.QUERY_THREAD_ID

/-- The `thread_id` placed in the `RunnableConfig` of turn number
`_turn` of agent `a`: the same class attribute on every turn. -/
def turnThreadId (a : MCPAgentInst) (_turn : Nat) : String := threadIdOf a

/-! ### `MCPClient` (`mcp_client.py`) -/

/-- Outcome of reading `mcp_server.json` (`mcp_client.py` lines 56-67):
the file may be absent (`FileNotFoundError`), unreadable or unparsable
or missing the key (any other exception, message `e`), or parsed,
yielding the value of its "mcpServers" key — a map server-name ↦
connection parameters, abstracted here to the list of configured
server names. -/
inductive ConfigLoad where
  | missing
  | loadError (e : String)
  | parsed (servers : List String)
deriving DecidableEq, Repr

/-- `MCPClient._load_server_list` (`mcp_client.py` lines 49-67): the
parsed server map; an empty map when the file is missing; an empty map
plus a printed warning on any other load error. The second component
collects the warnings printed. -/
def load_server_list : ConfigLoad → List String × List String
  | .missing => ([], [])
  | .loadError e => ([], ["경고: mcp_server.json 로드 중 오류 발생: " ++ e])
  | .parsed servers => (servers, [])

/-- Observable outcome of one `MCPClient.initialize` run (`mcp_client.py`
lines 21-47): the tools loaded, every warning printed, and the
RuntimeError message if one was raised. -/
structure InitRun where
  tools : List String
  warnings : List String
  raised : Option String
deriving DecidableEq, Repr

/-- `MCPClient.initialize` (`mcp_client.py` lines 21-47), parametrized
by the behavior of the external `MultiServerMCPClient.get_tools`
(`getTools`) — a single aggregate call over the whole configured server
map; the repository performs no per-endpoint handling. An empty or
missing configuration prints a warning and leaves the tool list empty;
otherwise the one `get_tools()` result is stored, and any exception it
raises is re-raised as a RuntimeError wrapping the original error. -/
def MCPClient_initialize_run (cfg : ConfigLoad)
    (getTools : List String → Except String (List String)) : InitRun :=
  let loaded := load_server_list cfg
  if loaded.1 = [] then
    { tools := [],
      warnings := loaded.2 ++
        ["경고: mcp_server.json 파일을 찾을 수 없거나 비어있습니다. MCP 도구를 로드할 수 없습니다."],
      raised := none }
  else
    match getTools loaded.1 with
    | .ok ts => { tools := ts, warnings := loaded.2, raised := none }
    | .error e =>
        { tools := [], warnings := loaded.2,
          raised := some ("MCP 클라이언트 초기화 실패: " ++ e) }

/-! ### `main.py`: module globals, the background initialization task and
the Gradio chat callback -/

/-- The module-level globals of `main.py` (lines 13-18). `agent_ready`
stands for `agent is not None` and `mcp_client_ready` for
`mcp_client is not None`. -/
structure AppState where
  mcp_client_ready : Bool
  agent_ready : Bool
  initialization_error_message : Option String
  is_initializing : Bool
  initialization_complete : Bool
  available_tool_names : List String
deriving DecidableEq, Repr

/-- The globals right after module import (`main.py` lines 13-18). -/
def initialAppState : AppState :=
  { mcp_client_ready := false, agent_ready := false,
    initialization_error_message := none, is_initializing := false,
    initialization_complete := false, available_tool_names := [] }

/-- What one run of the initialization body can do: both the MCP-client
initialization and the agent construction succeed, yielding the
discovered tool names; or some step raises with message `msg`
(`clientWasSet` records whether `mcp_client` had already been assigned
when the exception occurred). -/
inductive InitOutcome where
  | success (toolNames : List String)
  | failure (clientWasSet : Bool) (msg : String)
deriving DecidableEq, Repr

/-- `initialize_agent_task` (`main.py` lines 26-76) as a state
transformer. The Bool reports whether the body was attempted — it is
false when the guard of lines 30-33 made the call return immediately.
The `finally` block (lines 72-74) always clears `is_initializing` and
sets `initialization_complete`, on success and on exception alike. -/
def initialize_agent_task (g : AppState) (outcome : InitOutcome) :
    AppState × Bool :=
  if g.is_initializing || g.initialization_complete then (g, false)
  else
    let g1 : AppState :=
      { g with
        is_initializing := true,
        initialization_error_message := none,
        available_tool_names := [] }
    let g2 : AppState :=
      match outcome with
      | .success names =>
          { g1 with
            mcp_client_ready := true,
            agent_ready := true,
            available_tool_names := names.mergeSort (fun a b => a ≤ b),
            initialization_error_message := none }
      | .failure clientWasSet msg =>
          { g1 with
            mcp_client_ready := clientWasSet,
            agent_ready := false,
            initialization_error_message :=
              some ("Agent initialization failed: " ++ msg),
            available_tool_names := [] }
    ({ g2 with is_initializing := false, initialization_complete := true },
      true)

/-- `[a-zA-Z0-9_]`, the word characters of the tool-name pattern on
`main.py` line 125. -/
def isWordChar (c : Char) : Bool := c.isAlphanum || c = '_'

/-- Longest run of word characters at the head, and the remainder. -/
def takeWordRun : List Char → List Char × List Char
  | [] => ([], [])
  | c :: rest =>
      if isWordChar c then
        ((takeWordRun rest).1.cons c, (takeWordRun rest).2)
      else ([], c :: rest)

lemma takeWordRun_snd_length (l : List Char) :
    (takeWordRun l).2.length ≤ l.length := by
  induction l with
  | nil => simp [takeWordRun]
  | cons c rest ih =>
    simp only [takeWordRun]
    split
    · exact Nat.le_succ_of_le ih
    · simp

/-- Skip the `\s*` part of the pattern. -/
def dropWsRun : List Char → List Char
  | [] => []
  | c :: rest => if c.isWhitespace then dropWsRun rest else c :: rest

lemma dropWsRun_length (l : List Char) : (dropWsRun l).length ≤ l.length := by
  induction l with
  | nil => simp [dropWsRun]
  | cons c rest ih =>
    simp only [dropWsRun]
    split
    · exact Nat.le_succ_of_le ih
    · simp

/-- Match a literal character pattern at the head, returning the rest. -/
def stripLit : List Char → List Char → Option (List Char)
  | [], rest => some rest
  | _ :: _, [] => none
  | p :: ps, c :: cs => if p = c then stripLit ps cs else none

lemma stripLit_length_lt (ps : List Char) :
    ∀ l r : List Char, ps ≠ [] → stripLit ps l = some r →
      r.length < l.length := by
  induction ps with
  | nil => intro l r hps _; exact absurd rfl hps
  | cons p ps ih =>
    intro l r _ h
    cases l with
    | nil => exact absurd h (by simp [stripLit])
    | cons c cs =>
      simp only [stripLit] at h
      split at h
      · rcases hcase : ps with _ | ⟨p2, ps2⟩
        · subst hcase
          simp [stripLit] at h
          subst h
          simp
        · have := ih cs r (by simp [hcase]) (hcase ▸ h)
          simp only [List.length_cons]
          omega
      · exact absurd h (by simp)

/-- The literal part of the pattern on `main.py` line 125. -/
def toolUsedLit : List Char := "Tool Used:".toList

/-- `re.findall(r"Tool Used:\s*([a-zA-Z0-9_]+)", text)` (`main.py` line
125): scan left to right; where the literal matches, skip whitespace and
take a non-empty word-character run as one captured name, resuming after
it; otherwise advance one character. -/
def scanToolNames (l : List Char) : List String :=
  match l with
  | [] => []
  | c :: cs =>
      match h : stripLit toolUsedLit (c :: cs) with
      | some rest =>
          if (takeWordRun (dropWsRun rest)).1 = [] then scanToolNames cs
          else
            String.mk (takeWordRun (dropWsRun rest)).1 ::
              scanToolNames (takeWordRun (dropWsRun rest)).2
      | none => scanToolNames cs
termination_by l.length
decreasing_by
  · exact Nat.lt_succ_self _
  · have h1 := takeWordRun_snd_length (dropWsRun rest)
    have h2 := dropWsRun_length rest
    have h3 := stripLit_length_lt toolUsedLit _ rest (by decide) h
    simp only [List.length_cons] at h3 ⊢
    omega
  · exact Nat.lt_succ_self _

/-- `list(dict.fromkeys(found_tools))` (`main.py` line 127): deduplicate
keeping first occurrences, in order. -/
def firstDedup (l : List String) : List String :=
  l.foldl (fun acc x => if x ∈ acc then acc else acc ++ [x]) []

/-- `chat_interface` (`main.py` lines 80-142), as a function of the
globals it reads, the two UI inputs, and the response
`agent.process_query` would return for this input. The last component
of the 4-tuple reports whether `process_query` was invoked at all; the
first three are the strings handed back to the UI widgets. -/
def chat_interface (st : AppState) (user_input : String)
    (show_tool_activity : Bool) (response : TurnResult) :
    String × String × String × Bool :=
  if st.initialization_complete = false then
    if st.is_initializing then
      ("⏳ Agent is still initializing... Please wait.", "", "N/A", false)
    else
      ("⚠️ Agent not ready (" ++
        st.initialization_error_message.getD "not started/failed" ++
        "). Reload UI or check logs.", "", "N/A", false)
  else if st.initialization_error_message.isSome then
    ("⚠️ Agent Init Error: " ++ st.initialization_error_message.getD "" ++
      ". Check logs.", "", "Error", false)
  else if st.agent_ready = false then
    ("⚠️ Error: Agent unavailable after initialization.", "", "Error", false)
  else if user_input = "" ∨ pyStrip user_input = "" then
    ("Please enter a message.", "", "None", false)
  else
    let output0 := response.output.getD "[Error] No output."
    let tool_calls_text := response.tool_calls.getD ""
    let error_text := response.error.getD ""
    let output_text :=
      if error_text ≠ "" then "[Agent Error] " ++ error_text else output0
    let last0 : String := if error_text ≠ "" then "Error" else "None"
    let found := scanToolNames tool_calls_text.toList
    let last_tool :=
      if tool_calls_text ≠ "" then
        if found ≠ [] then String.intercalate ", " (firstDedup found)
        else last0
      else last0
    let formatted :=
      if show_tool_activity && tool_calls_text ≠ "" then
        "--- Tool Activity ---\n" ++ pyStrip tool_calls_text ++
          "\n---------------------"
      else ""
    (output_text, formatted, last_tool, true)

/-- The globals of a session whose initialization finished successfully:
initialization complete, no recorded error, agent constructed. -/
def readyState : AppState :=
  { mcp_client_ready := true, agent_ready := true,
    initialization_error_message := none, is_initializing := false,
    initialization_complete := true,
    available_tool_names := ["get_weather"] }

/-! ## Claims -/

/-- C1: for every streamed event sequence of one turn that ends without
an exception, the turn result's answer text equals the whitespace-trimmed
concatenation of the assistant-message text contents, in emission order —
character-by-character deltas included, since the chunking of the
contents is arbitrary. -/
theorem answer_text_eq_stripped_concat (chunks : List StreamChunk) :
    (process_query (.ok chunks)).output =
      some (pyStrip (String.join (aiContents chunks))) :=
  process_query_output chunks

/-- C2: every turn performs at most RECURSION_LIMIT = 100 model-to-tool
dispatch hops, and a pathological model that always requests another
tool call stops with a budget-exceeded outcome after exactly the
configured limit — and the turn then surfaces as a Failed (error-only)
result — rather than looping indefinitely. -/
theorem recursion_budget_enforced (model : Nat → ModelStep)
    (hpath : ∀ i, ∃ cs, model i = ModelStep.toolCalls cs) :
    (∀ m : Nat → ModelStep, (runTurn m).hopCount ≤ RECURSION_LIMIT) ∧
    runTurn model = LoopResult.budgetExceeded RECURSION_LIMIT ∧
    (process_query_driven model).error ≠ none := by
  have hbound : ∀ m : Nat → ModelStep, (runTurn m).hopCount ≤ RECURSION_LIMIT := by
    intro m
    simpa [runTurn] using reasoningLoop_hops_le m RECURSION_LIMIT 0
  have hpathrun : runTurn model = LoopResult.budgetExceeded RECURSION_LIMIT := by
    simpa [runTurn] using reasoningLoop_pathological model hpath RECURSION_LIMIT 0
  refine ⟨hbound, hpathrun, ?_⟩
  simp [process_query_driven, hpathrun, process_query]

/-- Witness for C2 at the concrete always-tool-calling model. -/
theorem recursion_budget_enforced_witness :
    (∀ i, ∃ cs, (fun _ : Nat => ModelStep.toolCalls ["echo"]) i =
        ModelStep.toolCalls cs) ∧
    runTurn (fun _ : Nat => ModelStep.toolCalls ["echo"]) =
      LoopResult.budgetExceeded RECURSION_LIMIT :=
  ⟨fun _ => ⟨["echo"], rfl⟩,
    (recursion_budget_enforced (fun _ : Nat => ModelStep.toolCalls ["echo"])
      (fun _ => ⟨["echo"], rfl⟩)).2.1⟩

/-- C3 counterexample: two endpoints are configured and one of them is
unreachable. Even under the library behavior most favorable to the claim
— the single aggregate get_tools() call still succeeds with the
reachable endpoint's tool — initialize records no warning at all (the
client code has no per-endpoint handling), refuting "records a warning
for each unreachable endpoint"; and if the aggregate call instead fails
because of the unreachable endpoint, the whole initialization raises,
refuting "does not raise for" it. -/
theorem partial_discovery_failure_unisolated_cex :
    ((MCPClient_initialize_run (.parsed ["weather", "broken"])
        (fun _ => .ok ["get_weather"])).tools = ["get_weather"] ∧
      (MCPClient_initialize_run (.parsed ["weather", "broken"])
        (fun _ => .ok ["get_weather"])).warnings = []) ∧
    (MCPClient_initialize_run (.parsed ["weather", "broken"])
        (fun _ => .error "ClientError - broken: connection refused")).raised ≠
      none :=
  ⟨⟨rfl, rfl⟩, by decide⟩

/-- C3 (amended): with at least one server configured, initialization
performs a single aggregate discovery call: on success it returns
exactly that call's tool set and records no per-endpoint warnings; on
any failure it raises a RuntimeError wrapping the error, so per-endpoint
failures are not isolated. Only an empty or missing configuration yields
an empty tool set with a warning and without raising. -/
theorem discovery_aggregate_all_or_nothing (servers : List String)
    (getTools : List String → Except String (List String))
    (hne : servers ≠ []) :
    (∀ ts, getTools servers = .ok ts →
        MCPClient_initialize_run (.parsed servers) getTools =
          { tools := ts, warnings := [], raised := none }) ∧
    (∀ e, getTools servers = .error e →
        MCPClient_initialize_run (.parsed servers) getTools =
          { tools := [], warnings := [],
            raised := some ("MCP 클라이언트 초기화 실패: " ++ e) }) ∧
    (MCPClient_initialize_run .missing getTools).raised = none ∧
    (MCPClient_initialize_run .missing getTools).tools = [] := by
  refine ⟨?_, ?_, rfl, rfl⟩
  · intro ts hts
    simp [MCPClient_initialize_run, load_server_list, hne, hts]
  · intro e he
    simp [MCPClient_initialize_run, load_server_list, hne, he]

/-- Witness for C3 (amended) at a concrete one-server configuration. -/
theorem discovery_aggregate_all_or_nothing_witness :
    (["weather"] : List String) ≠ [] ∧
    MCPClient_initialize_run (.parsed ["weather"]) (fun _ => .ok ["get_weather"]) =
      { tools := ["get_weather"], warnings := [], raised := none } :=
  ⟨by decide,
    (discovery_aggregate_all_or_nothing ["weather"]
      (fun _ => .ok ["get_weather"]) (by decide)).1 ["get_weather"] rfl⟩

/-- C4 counterexample: a turn in which no assistant text chunk ever
arrives returns the empty string as its answer text, which is not the
sentinel the claim requires. -/
theorem no_text_empty_not_sentinel_cex :
    (process_query
        (.ok [.step [.toolMsg "get_time" "12:00"], .unrecognized])).output =
      some "" ∧
    ("" : String) ≠ "no textual response produced" :=
  ⟨by decide, by decide⟩

/-- C4 (amended): for every turn that ends normally in which no
assistant text chunk ever arrives, the returned answer text is the empty
string — the code produces no sentinel, so "agent produced nothing" and
"agent's answer happens to be empty" are indistinguishable. -/
theorem no_text_yields_empty_answer (chunks : List StreamChunk)
    (h : aiContents chunks = []) :
    (process_query (.ok chunks)).output = some "" := by
  rw [process_query_output chunks, h]
  rfl

/-- Witness for C4 (amended) at a concrete tool-only turn. -/
theorem no_text_yields_empty_answer_witness :
    aiContents [StreamChunk.step [StreamMsg.toolMsg "get_weather" "sunny"]] =
      [] ∧
    (process_query
        (.ok [StreamChunk.step [StreamMsg.toolMsg "get_weather" "sunny"]])).output =
      some "" :=
  ⟨by decide, no_text_yields_empty_answer _ (by decide)⟩

/-- C5: `TIMEOUT_SECONDS` is 300, yet a turn whose only chunk arrives
400 seconds after the turn started — past the timeout — still completes
normally with the accumulated answer and no error: the constant is
defined but never applied, and no wall-clock timeout races the turn. -/
theorem turn_past_timeout_still_succeeds :
    TIMEOUT_SECONDS = 300 ∧ 400 > TIMEOUT_SECONDS ∧
    (process_query_timed
        [{ at_seconds := 400, chunk := .step [.ai "hello"] }]).error = none ∧
    (process_query_timed
        [{ at_seconds := 400, chunk := .step [.ai "hello"] }]).output =
      some "hello" :=
  ⟨rfl, by decide, rfl, by decide⟩

/-- C6: a turn that fails (the stream raises with a non-empty message
`e`) yields a result whose error field holds `e`; the UI callback
renders it — totally, without crashing — as the diagnostic answer
"[Agent Error] e" with an empty tool log; and the very same session
state serves a later submit, which again reaches the agent. -/
theorem failed_turn_rendered_session_usable (st : AppState)
    (q q2 : String) (flag flag2 : Bool) (chunks : List StreamChunk)
    (e : String) (resp2 : TurnResult)
    (hc : st.initialization_complete = true)
    (he : st.initialization_error_message = none)
    (ha : st.agent_ready = true)
    (hq : pyStrip q ≠ "") (hq2 : pyStrip q2 ≠ "") (hee : e ≠ "") :
    (process_query (.raises chunks e)).error = some e ∧
    chat_interface st q flag (process_query (.raises chunks e)) =
      ("[Agent Error] " ++ e, "", "Error", true) ∧
    (chat_interface st q2 flag2 resp2).2.2.2 = true := by
  have hq0 : ¬q = "" := fun habs => hq (by rw [habs]; rfl)
  have hq20 : ¬q2 = "" := fun habs => hq2 (by rw [habs]; rfl)
  refine ⟨rfl, ?_, ?_⟩
  · simp [chat_interface, hc, he, ha, hq0, hq, process_query, hee]
  · simp [chat_interface, hc, he, ha, hq20, hq2]

/-- Witness for C6 at a concrete ready session and failing turn. -/
theorem failed_turn_rendered_session_usable_witness :
    readyState.initialization_complete = true ∧
    chat_interface readyState "hi" false (process_query (.raises [] "boom")) =
      ("[Agent Error] boom", "", "Error", true) :=
  ⟨rfl,
    (failed_turn_rendered_session_usable readyState "hi" "again" false false
      [] "boom" { output := none, tool_calls := none, error := none }
      rfl rfl rfl (by decide) (by decide) (by decide)).2.1⟩

/-- C7: with the session ready, an empty or whitespace-only input
returns the validation message and the agent's `process_query` is never
invoked (last tuple component false). -/
theorem blank_input_validation_no_model_call (st : AppState) (q : String)
    (flag : Bool) (response : TurnResult)
    (hc : st.initialization_complete = true)
    (he : st.initialization_error_message = none)
    (ha : st.agent_ready = true)
    (hq : pyStrip q = "") :
    chat_interface st q flag response =
      ("Please enter a message.", "", "None", false) := by
  simp [chat_interface, hc, he, ha, hq]

/-- Witness for C7 at the concrete whitespace-only input. -/
theorem blank_input_validation_no_model_call_witness :
    readyState.initialization_complete = true ∧ pyStrip "   " = "" ∧
    chat_interface readyState "   " true
        { output := some "x", tool_calls := some "", error := none } =
      ("Please enter a message.", "", "None", false) :=
  ⟨rfl, by decide,
    blank_input_validation_no_model_call readyState "   " true
      { output := some "x", tool_calls := some "", error := none }
      rfl rfl rfl (by decide)⟩

/-- C8 counterexample: two distinct agent instances created in the same
process (same import of the class) have equal thread identities, because
`QUERY_THREAD_ID` was drawn once at class-definition time. -/
theorem distinct_sessions_share_thread_id_cex :
    (mkMCPAgent (defineMCPAgentClass "c9a1f3d2-session-uuid") 1 none ≠
      mkMCPAgent (defineMCPAgentClass "c9a1f3d2-session-uuid") 2 none) ∧
    threadIdOf (mkMCPAgent (defineMCPAgentClass "c9a1f3d2-session-uuid") 1 none) =
      threadIdOf (mkMCPAgent (defineMCPAgentClass "c9a1f3d2-session-uuid") 2 none) :=
  ⟨by decide, rfl⟩

/-- C8 (amended): the thread_id is stable across all turns of one
session, but it is not fresh per session: `QUERY_THREAD_ID` is a class
attribute drawn once when the class body runs, so within one process
every agent instance — distinct, unrelated sessions included — uses the
same thread_id on every turn. -/
theorem thread_id_stable_and_process_shared (u : String) (i j : Nat)
    (p q : Option String) (t t' : Nat) :
    turnThreadId (mkMCPAgent (defineMCPAgentClass u) i p) t =
      turnThreadId (mkMCPAgent (defineMCPAgentClass u) j q) t' := rfl

/-- C9: when `mcp_server.json` is absent, `initialize` completes without
raising and yields an empty tool set, whatever the multi-server client
would have done. -/
theorem missing_config_yields_empty_tools
    (getTools : List String → Except String (List String)) :
    (MCPClient_initialize_run .missing getTools).raised = none ∧
    (MCPClient_initialize_run .missing getTools).tools = [] :=
  ⟨rfl, rfl⟩

/-- C10: a call that actually runs the initialization body — whether the
body succeeds or raises — leaves is_initializing = false and
initialization_complete = true, and every later call returns
immediately with the state unchanged and the body not re-attempted, so
initialization is attempted at most once per process lifetime. -/
theorem init_task_attempted_at_most_once (g : AppState) (o : InitOutcome)
    (hrun : g.is_initializing = false)
    (hnc : g.initialization_complete = false) :
    (initialize_agent_task g o).2 = true ∧
    (initialize_agent_task g o).1.is_initializing = false ∧
    (initialize_agent_task g o).1.initialization_complete = true ∧
    ∀ o2, initialize_agent_task (initialize_agent_task g o).1 o2 =
      ((initialize_agent_task g o).1, false) := by
  cases o with
  | success names => simp [initialize_agent_task, hrun, hnc]
  | failure b msg => simp [initialize_agent_task, hrun, hnc]

/-- Witness for C10 at the fresh process state and a raising body. -/
theorem init_task_attempted_at_most_once_witness :
    initialAppState.is_initializing = false ∧
    initialAppState.initialization_complete = false ∧
    (initialize_agent_task initialAppState
        (.failure true "boom")).1.initialization_complete = true ∧
    initialize_agent_task
        (initialize_agent_task initialAppState (.failure true "boom")).1
        (.success ["get_time"]) =
      ((initialize_agent_task initialAppState (.failure true "boom")).1,
        false) :=
  ⟨rfl, rfl,
    (init_task_attempted_at_most_once initialAppState
      (.failure true "boom") rfl rfl).2.2.1,
    (init_task_attempted_at_most_once initialAppState
      (.failure true "boom") rfl rfl).2.2.2 (.success ["get_time"])⟩

end MCPStudy
